import Mathlib

/-!
# TMC2209 evaluation-board driver (boards/TMC2209_eval.c)

A shallow embedding of the board file: the parameter dispatch
(handleParameter, GAP, SAP), the motion wrappers (rotate, moveTo, moveBy),
the UART exchange (tmc2209_readWriteArray), the health tick (checkErrors)
and the driver-enable logic (enableDriver).

Functions that live in other translation units (StepDir.c, TMC2209.c, the
HAL) are parameters of the development: a record of operations over an
abstract state.  Each call the board code makes to one of them is also
appended to a call log, so that statements of the form "no operation is
invoked" or "exactly one call" can be expressed.
-/

set_option linter.unusedVariables false

namespace TMC2209_eval

/-! ## Constants -/

/-- Number of motors of the board: the macro MOTORS of the board file. -/
def MOTORS : Nat := 1

/-- Timeout for UART replies in milliseconds: the macro TIMEOUT_VALUE. -/
def TIMEOUT_VALUE : Nat := 10

/-- Modelled from the spec: the access code READ comes from a header outside
the board file; the dispatch only distinguishes a read from a write. -/
def READ : Nat := 0

/-- Modelled from the spec: the access code WRITE comes from a header outside
the board file; the dispatch only distinguishes a read from a write. -/
def WRITE : Nat := 1

/-- Modelled from the spec: the success code, an enumerator of a header
outside the board file (no error bit set). -/
def TMC_ERROR_NONE : Nat := 0x00

/-- Modelled from the spec: the InvalidMotor error bit, an enumerator of a
header outside the board file. -/
def TMC_ERROR_MOTOR : Nat := 0x08

/-- Modelled from the spec: the UnknownParameter / UnsupportedOperation error
bit, an enumerator of a header outside the board file. -/
def TMC_ERROR_TYPE : Nat := 0x04

/-! ## 32-bit signed arithmetic -/

/-- Reduce an integer to the int32_t range, two's complement. -/
def wrap32 (x : Int) : Int := (x + 2 ^ 31) % 2 ^ 32 - 2 ^ 31

/-- The C library abs on int32_t: the negation of a negative argument is
computed in 32 bits, so the most negative value maps to itself. -/
def abs32 (x : Int) : Int := wrap32 (if x < 0 then -x else x)

/-! ## Collaborators of the parameter dispatch -/

/-- One call made by the board file into the motion generator (StepDir) or
the TMC2209 register engine, with its arguments as written at the call. -/
inductive Call where
  | StepDir_getTargetPosition (motor : Nat)
  | StepDir_getActualPosition (motor : Nat)
  | StepDir_getTargetVelocity (motor : Nat)
  | StepDir_getActualVelocity (motor : Nat)
  | StepDir_getVelocityMax (motor : Nat)
  | StepDir_getAcceleration (motor : Nat)
  | StepDir_moveTo (motor : Nat) (position : Int)
  | StepDir_setActualPosition (motor : Nat) (position : Int)
  | StepDir_rotate (motor : Nat) (velocity : Int)
  | StepDir_setVelocityMax (motor : Nat) (velocityMax : Int)
  | StepDir_setAcceleration (motor : Nat) (acceleration : Int)
  | tmc2209_get_slave
  | tmc2209_set_slave (slaveAddress : Int)
  deriving DecidableEq

/-- The operations of StepDir.c and TMC2209.c used by the dispatch, over the
motion-generator state σ and the IC state τ.  Getters read the state; setters
return the new state. -/
structure Collaborators (σ τ : Type) where
  StepDir_getTargetPosition : σ → Nat → Int
  StepDir_getActualPosition : σ → Nat → Int
  StepDir_getTargetVelocity : σ → Nat → Int
  StepDir_getActualVelocity : σ → Nat → Int
  StepDir_getVelocityMax : σ → Nat → Int
  StepDir_getAcceleration : σ → Nat → Int
  StepDir_moveTo : σ → Nat → Int → σ
  StepDir_setActualPosition : σ → Nat → Int → σ
  StepDir_rotate : σ → Nat → Int → σ
  StepDir_setVelocityMax : σ → Nat → Int → σ
  StepDir_setAcceleration : σ → Nat → Int → σ
  tmc2209_get_slave : τ → Int
  tmc2209_set_slave : τ → Int → τ

/-- The state the dispatch acts on: the motion generator, the TMC2209 IC
object, and the log of collaborator calls made so far (oldest first). -/
structure World (σ τ : Type) where
  stepDir : σ
  TMC2209 : τ
  calls : List Call

/-- Record a call that only reads. -/
def World.observe {σ τ : Type} (w : World σ τ) (c : Call) : World σ τ :=
  { stepDir := w.stepDir, TMC2209 := w.TMC2209, calls := w.calls ++ [c] }

/-- Record a call that updates the motion generator. -/
def World.motion {σ τ : Type} (w : World σ τ) (c : Call) (s : σ) : World σ τ :=
  { stepDir := s, TMC2209 := w.TMC2209, calls := w.calls ++ [c] }

/-- Record a call that updates the IC object. -/
def World.chip {σ τ : Type} (w : World σ τ) (c : Call) (t : τ) : World σ τ :=
  { stepDir := w.stepDir, TMC2209 := t, calls := w.calls ++ [c] }

/-! ## Motion wrappers -/

/-- The function rotate: motor check, then StepDir_rotate. -/
def rotate {σ τ : Type} (C : Collaborators σ τ) (motor : Nat) (velocity : Int)
    (w : World σ τ) : Nat × World σ τ :=
  if motor ≥ MOTORS then (TMC_ERROR_MOTOR, w)
  else
    (TMC_ERROR_NONE,
      w.motion (Call.StepDir_rotate motor velocity) (C.StepDir_rotate w.stepDir motor velocity))

/-- The function right. -/
def right {σ τ : Type} (C : Collaborators σ τ) (motor : Nat) (velocity : Int)
    (w : World σ τ) : Nat × World σ τ :=
  rotate C motor velocity w

/-- The function left: rotate with the negated velocity. -/
def left {σ τ : Type} (C : Collaborators σ τ) (motor : Nat) (velocity : Int)
    (w : World σ τ) : Nat × World σ τ :=
  rotate C motor (wrap32 (-velocity)) w

/-- The function stop. -/
def stop {σ τ : Type} (C : Collaborators σ τ) (motor : Nat)
    (w : World σ τ) : Nat × World σ τ :=
  rotate C motor 0 w

/-- The function moveTo: motor check, then StepDir_moveTo. -/
def moveTo {σ τ : Type} (C : Collaborators σ τ) (motor : Nat) (position : Int)
    (w : World σ τ) : Nat × World σ τ :=
  if motor ≥ MOTORS then (TMC_ERROR_MOTOR, w)
  else
    (TMC_ERROR_NONE,
      w.motion (Call.StepDir_moveTo motor position) (C.StepDir_moveTo w.stepDir motor position))

/-- The function moveBy.  The pointer argument ticks is an in/out value: the
result carries the error code, the final content of ticks and the world. -/
def moveBy {σ τ : Type} (C : Collaborators σ τ) (motor : Nat) (ticks : Int)
    (w : World σ τ) : Nat × Int × World σ τ :=
  if motor ≥ MOTORS then (TMC_ERROR_MOTOR, ticks, w)
  else
    let ticks1 := wrap32 (ticks + C.StepDir_getActualPosition w.stepDir motor)
    let w1 := w.observe (Call.StepDir_getActualPosition motor)
    let r := moveTo C motor ticks1 w1
    (r.1, ticks1, r.2)

/-! ## Parameter dispatch -/

/-- The function handleParameter.  The pointer argument value is an in/out
value: the result carries the error code, the final content of value and the
world. -/
def handleParameter {σ τ : Type} (C : Collaborators σ τ)
    (readWrite motor type : Nat) (value : Int) (w : World σ τ) : Nat × Int × World σ τ :=
  let errors := TMC_ERROR_NONE
  if motor ≥ MOTORS then (TMC_ERROR_MOTOR, value, w)
  else
    match type with
    | 0 =>
      if readWrite = READ then
        (errors, C.StepDir_getTargetPosition w.stepDir motor,
          w.observe (Call.StepDir_getTargetPosition motor))
      else if readWrite = WRITE then
        (errors, value,
          w.motion (Call.StepDir_moveTo motor value) (C.StepDir_moveTo w.stepDir motor value))
      else (errors, value, w)
    | 1 =>
      if readWrite = READ then
        (errors, C.StepDir_getActualPosition w.stepDir motor,
          w.observe (Call.StepDir_getActualPosition motor))
      else if readWrite = WRITE then
        (errors, value,
          w.motion (Call.StepDir_setActualPosition motor value)
            (C.StepDir_setActualPosition w.stepDir motor value))
      else (errors, value, w)
    | 2 =>
      if readWrite = READ then
        (errors, C.StepDir_getTargetVelocity w.stepDir motor,
          w.observe (Call.StepDir_getTargetVelocity motor))
      else if readWrite = WRITE then
        (errors, value,
          w.motion (Call.StepDir_rotate motor value) (C.StepDir_rotate w.stepDir motor value))
      else (errors, value, w)
    | 3 =>
      if readWrite = READ then
        (errors, C.StepDir_getActualVelocity w.stepDir motor,
          w.observe (Call.StepDir_getActualVelocity motor))
      else if readWrite = WRITE then
        (errors ||| TMC_ERROR_TYPE, value, w)
      else (errors, value, w)
    | 4 =>
      if readWrite = READ then
        (errors, C.StepDir_getVelocityMax w.stepDir motor,
          w.observe (Call.StepDir_getVelocityMax motor))
      else if readWrite = WRITE then
        (errors, value,
          w.motion (Call.StepDir_setVelocityMax motor (abs32 value))
            (C.StepDir_setVelocityMax w.stepDir motor (abs32 value)))
      else (errors, value, w)
    | 5 =>
      if readWrite = READ then
        (errors, C.StepDir_getAcceleration w.stepDir motor,
          w.observe (Call.StepDir_getAcceleration motor))
      else if readWrite = WRITE then
        (errors, value,
          w.motion (Call.StepDir_setAcceleration motor value)
            (C.StepDir_setAcceleration w.stepDir motor value))
      else (errors, value, w)
    | 6 =>
      if readWrite = READ then
        (errors, C.tmc2209_get_slave w.TMC2209, w.observe Call.tmc2209_get_slave)
      else if readWrite = WRITE then
        (errors, value,
          w.chip (Call.tmc2209_set_slave value) (C.tmc2209_set_slave w.TMC2209 value))
      else (errors, value, w)
    | _ => (errors ||| TMC_ERROR_TYPE, value, w)

/-- The function SAP.  The value is passed by value: handleParameter works on
a local copy, which is dropped on return. -/
def SAP {σ τ : Type} (C : Collaborators σ τ) (type motor : Nat) (value : Int)
    (w : World σ τ) : Nat × World σ τ :=
  let r := handleParameter C WRITE motor type value w
  (r.1, r.2.2)

/-- The function GAP: the result carries the error code, the final content
of the caller's value and the world. -/
def GAP {σ τ : Type} (C : Collaborators σ τ) (type motor : Nat) (value : Int)
    (w : World σ τ) : Nat × Int × World σ τ :=
  handleParameter C READ motor type value w

/-! ## UART exchange -/

/-- One operation requested from the UART driver or the system tick by
tmc2209_readWriteArray, with its arguments as written at the call. -/
inductive BusOp where
  | clearBuffers
  | txN (data : List Nat) (number : Nat)
  | rxN (number : Nat)
  | bytesAvailable
  | wait (delay : Nat)
  | systick_getTick
  | timeSince (tick : Nat)
  deriving DecidableEq

/-- The UART driver (rxtx) and tick operations used by the exchange, over an
environment state ε that holds the bus buffers and the clock.  Every
operation may change the environment: bytes arrive and time passes.  txN
transmits from the array it is handed and does not write to it; rxN returns
the new content of the array. -/
structure Platform (ε : Type) where
  clearBuffers : ε → ε
  txN : ε → List Nat → Nat → ε
  rxN : ε → List Nat → Nat → List Nat × ε
  bytesAvailable : ε → Nat × ε
  wait : ε → Nat → ε
  systick_getTick : ε → Nat × ε
  timeSince : ε → Nat → Nat × ε

/-- The environment together with the log of operations requested so far
(oldest first). -/
structure Bus (ε : Type) where
  env : ε
  ops : List BusOp

/-- Which return statement the polling loop was left through. -/
inductive LoopExit where
  | ready
  | abort
  deriving DecidableEq

/-- Which return path of tmc2209_readWriteArray was taken.  The C function
returns void; the label names the path: the early return of a write-only
exchange, the abort on timeout, or the end of the function after rxN. -/
inductive ExchangeResult where
  | Written
  | TimedOut
  | Received
  deriving DecidableEq

/-- The reply-polling loop of tmc2209_readWriteArray.  The first argument
bounds the number of iterations looked at; the result none means the loop
is still polling after that many. -/
def pollLoop {ε : Type} (P : Platform ε) (timestamp readLength : Nat) :
    Nat → Bus ε → Option LoopExit × Bus ε
  | 0, b => (none, b)
  | fuel + 1, b =>
    let a := P.bytesAvailable b.env
    let b1 : Bus ε := { env := a.2, ops := b.ops ++ [BusOp.bytesAvailable] }
    if a.1 < readLength then
      let t := P.timeSince b1.env timestamp
      let b2 : Bus ε := { env := t.2, ops := b1.ops ++ [BusOp.timeSince timestamp] }
      if t.1 > TIMEOUT_VALUE then (some LoopExit.abort, b2)
      else pollLoop P timestamp readLength fuel b2
    else (some LoopExit.ready, b1)

/-- The function tmc2209_readWriteArray.  The channel is not used: every
channel maps to the one UART.  The result carries the return path (none when
the loop is still polling after fuel iterations), the final content of the
data array and the bus. -/
def tmc2209_readWriteArray {ε : Type} (P : Platform ε) (fuel : Nat) (channel : Nat)
    (data : List Nat) (writeLength readLength : Nat) (b : Bus ε) :
    Option ExchangeResult × List Nat × Bus ε :=
  let b1 : Bus ε := { env := P.clearBuffers b.env, ops := b.ops ++ [BusOp.clearBuffers] }
  let b2 : Bus ε :=
    { env := P.txN b1.env data writeLength, ops := b1.ops ++ [BusOp.txN data writeLength] }
  let b3 : Bus ε := { env := P.wait b2.env 2, ops := b2.ops ++ [BusOp.wait 2] }
  if readLength ≤ 0 then (some ExchangeResult.Written, data, b3)
  else
    let t := P.systick_getTick b3.env
    let b4 : Bus ε := { env := t.2, ops := b3.ops ++ [BusOp.systick_getTick] }
    match pollLoop P t.1 readLength fuel b4 with
    | (none, b5) => (none, data, b5)
    | (some LoopExit.abort, b5) => (some ExchangeResult.TimedOut, data, b5)
    | (some LoopExit.ready, b5) =>
      let r := P.rxN b5.env data readLength
      (some ExchangeResult.Received, r.1, { env := r.2, ops := b5.ops ++ [BusOp.rxN readLength] })

/-- The environment and timestamp at the start of the polling loop: after
clearBuffers, txN, the settling wait and the read of the tick counter. -/
def settled {ε : Type} (P : Platform ε) (data : List Nat) (writeLength : Nat) (e : ε) :
    Nat × ε :=
  P.systick_getTick (P.wait (P.txN (P.clearBuffers e) data writeLength) 2)

/-- One unsuccessful poll: bytesAvailable, then timeSince. -/
def pollStep {ε : Type} (P : Platform ε) (timestamp : Nat) (e : ε) : ε :=
  (P.timeSince (P.bytesAvailable e).2 timestamp).2

/-- What bytesAvailable answers at poll number i (from 0) of a run of
unsuccessful polls starting in e. -/
def availableAt {ε : Type} (P : Platform ε) (timestamp : Nat) (e : ε) (i : Nat) : Nat :=
  (P.bytesAvailable ((pollStep P timestamp)^[i] e)).1

/-- What timeSince answers at poll number i (from 0) of a run of
unsuccessful polls starting in e. -/
def elapsedAt {ε : Type} (P : Platform ε) (timestamp : Nat) (e : ε) (i : Nat) : Nat :=
  (P.timeSince (P.bytesAvailable ((pollStep P timestamp)^[i] e)).2 timestamp).1

/-- The operations logged by n unsuccessful polls. -/
def pollOps (timestamp : Nat) : Nat → List BusOp
  | 0 => []
  | n + 1 => BusOp.bytesAvailable :: BusOp.timeSince timestamp :: pollOps timestamp n

/-! ## Board state: channel descriptor and pins -/

/-- The enumeration DriverState. -/
inductive DriverState where
  | DRIVER_DISABLE
  | DRIVER_ENABLE
  | DRIVER_USE_GLOBAL_ENABLE
  deriving DecidableEq

/-- The digital pins of the board connector referred to by the board file. -/
inductive IOPin where
  | DIO0 | DIO1 | DIO2 | DIO3 | DIO4 | DIO6 | DIO7 | DIO8 | DIO9
  deriving DecidableEq

/-- The structure PinsTypeDef of the board file. -/
structure PinsTypeDef where
  ENN : IOPin
  SPREAD : IOPin
  STEP : IOPin
  DIR : IOPin
  MS1_AD0 : IOPin
  MS2_AD1 : IOPin
  DIAG : IOPin
  INDEX : IOPin
  UC_PWM : IOPin
  STDBY : IOPin

/-- The pin assignment made by TMC2209_init. -/
def Pins : PinsTypeDef :=
  { ENN := IOPin.DIO0, SPREAD := IOPin.DIO8, STEP := IOPin.DIO6, DIR := IOPin.DIO7,
    MS1_AD0 := IOPin.DIO3, MS2_AD1 := IOPin.DIO4, DIAG := IOPin.DIO1, INDEX := IOPin.DIO2,
    UC_PWM := IOPin.DIO9, STDBY := IOPin.DIO0 }

/-- One output request to the pin layer of the HAL. -/
inductive HalCall where
  | setHigh (pin : IOPin)
  | setLow (pin : IOPin)
  deriving DecidableEq

/-- The fields of one channel descriptor that the board file assigns data to
(the handlers are function pointers and carry no state). -/
structure EvalboardChannel where
  errors : Nat
  numberOfMotors : Nat
  VMMin : Nat
  VMMax : Nat
  deriving DecidableEq

/-- The global Evalboards: the shared driver-enable flag and the two
channels. -/
structure EvalboardsTypeDef where
  driverEnable : DriverState
  ch1 : EvalboardChannel
  ch2 : EvalboardChannel
  deriving DecidableEq

/-- The global state seen by checkErrors and enableDriver: the Evalboards
record and the log of pin requests made so far (oldest first). -/
structure Board where
  Evalboards : EvalboardsTypeDef
  pinCalls : List HalCall
  deriving DecidableEq

/-- The function checkErrors. -/
def checkErrors (tick : Nat) (b : Board) : Board :=
  { b with Evalboards := { b.Evalboards with ch2 := { b.Evalboards.ch2 with errors := 0 } } }

/-- The function enableDriver. -/
def enableDriver (state : DriverState) (b : Board) : Board :=
  let state :=
    if state = DriverState.DRIVER_USE_GLOBAL_ENABLE then b.Evalboards.driverEnable else state
  if state = DriverState.DRIVER_DISABLE then
    { b with pinCalls := b.pinCalls ++ [HalCall.setHigh Pins.ENN] }
  else if state = DriverState.DRIVER_ENABLE ∧
      b.Evalboards.driverEnable = DriverState.DRIVER_ENABLE then
    { b with pinCalls := b.pinCalls ++ [HalCall.setLow Pins.ENN] }
  else b

/-- The effective state of a request, in the words of the specification: the
global flag when the request is FollowGlobal, the request itself otherwise. -/
def effectiveState (s g : DriverState) : DriverState :=
  match s with
  | DriverState.DRIVER_USE_GLOBAL_ENABLE => g
  | _ => s

/-! ## Concrete collaborators, used to instantiate the statements -/

/-- The state of a motion generator that stores what it is given. -/
structure MotionState where
  targetPosition : Int
  actualPosition : Int
  targetVelocity : Int
  actualVelocity : Int
  velocityMax : Int
  acceleration : Int
  deriving DecidableEq

/-- A motion generator that stores what it is given, and a register engine
that stores the slave address. -/
def storing : Collaborators MotionState Int :=
  { StepDir_getTargetPosition := fun s _ => s.targetPosition
    StepDir_getActualPosition := fun s _ => s.actualPosition
    StepDir_getTargetVelocity := fun s _ => s.targetVelocity
    StepDir_getActualVelocity := fun s _ => s.actualVelocity
    StepDir_getVelocityMax := fun s _ => s.velocityMax
    StepDir_getAcceleration := fun s _ => s.acceleration
    StepDir_moveTo := fun s _ x => { s with targetPosition := x }
    StepDir_setActualPosition := fun s _ x => { s with actualPosition := x }
    StepDir_rotate := fun s _ x => { s with targetVelocity := x }
    StepDir_setVelocityMax := fun s _ x => { s with velocityMax := x }
    StepDir_setAcceleration := fun s _ x => { s with acceleration := x }
    tmc2209_get_slave := fun t => t
    tmc2209_set_slave := fun _ x => x }

/-- A generator at rest at position 1000. -/
def atRest : MotionState :=
  { targetPosition := 1000, actualPosition := 1000, targetVelocity := 0,
    actualVelocity := 0, velocityMax := 51200, acceleration := 51200 }

/-- A world around the storing collaborators with an empty call log. -/
def world0 : World MotionState Int :=
  { stepDir := atRest, TMC2209 := 0, calls := [] }

/-- An environment for the exchange: the tick counter and the number of
bytes waiting in the receive buffer. -/
structure Line where
  now : Nat
  pending : Nat
  deriving DecidableEq

/-- A silent bus: nothing ever arrives, and each bytesAvailable poll takes
five milliseconds. -/
def silent : Platform Line :=
  { clearBuffers := fun e => { e with pending := 0 }
    txN := fun e _ _ => e
    rxN := fun e data n => (List.replicate n 0 ++ data.drop n, { e with pending := e.pending - n })
    bytesAvailable := fun e => (e.pending, { e with now := e.now + 5 })
    wait := fun e d => { e with now := e.now + d }
    systick_getTick := fun e => (e.now, e)
    timeSince := fun e t => ((e.now + 2 ^ 32 - t % 2 ^ 32) % 2 ^ 32, e) }

/-- A bus at tick 100 with three stale bytes in the receive buffer and an
empty log. -/
def bus0 : Bus Line :=
  { env := { now := 100, pending := 3 }, ops := [] }

/-! ## Auxiliary facts -/

theorem wrap32_of_range (x : Int) (hlo : -2 ^ 31 ≤ x) (hhi : x < 2 ^ 31) : wrap32 x = x := by
  unfold wrap32
  have h : (x + 2 ^ 31) % 2 ^ 32 = x + 2 ^ 31 := Int.emod_eq_of_lt (by omega) (by omega)
  omega

theorem abs32_of_range (x : Int) (hlo : -2 ^ 31 < x) (hhi : x < 2 ^ 31) : abs32 x = |x| := by
  unfold abs32
  split
  · rename_i h
    rw [abs_of_neg h]
    exact wrap32_of_range _ (by omega) (by omega)
  · rename_i h
    rw [abs_of_nonneg (by omega)]
    exact wrap32_of_range _ (by omega) (by omega)

theorem motor_valid {m : Nat} (hm : m < MOTORS) : ¬ (m ≥ MOTORS) := by
  omega

theorem pollOps_mem (timestamp n : Nat) (o : BusOp) (ho : o ∈ pollOps timestamp n) :
    o = BusOp.bytesAvailable ∨ o = BusOp.timeSince timestamp := by
  induction n with
  | zero => simp [pollOps] at ho
  | succ n ih =>
    simp only [pollOps, List.mem_cons] at ho
    rcases ho with h | h | h
    · exact Or.inl h
    · exact Or.inr h
    · exact ih h

/-- A run of polls in which the bytes stay short of readLength and the
timeout is first exceeded at poll k leaves the loop through the abort, after
exactly k + 1 polls, as soon as more than k iterations are looked at. -/
theorem pollLoop_abort {ε : Type} (P : Platform ε) (timestamp readLength : Nat) (k : Nat) :
    ∀ (fuel : Nat) (e : ε) (ops : List BusOp),
      (∀ i, i ≤ k → availableAt P timestamp e i < readLength) →
      (∀ i, i < k → elapsedAt P timestamp e i ≤ TIMEOUT_VALUE) →
      TIMEOUT_VALUE < elapsedAt P timestamp e k →
      k < fuel →
      pollLoop P timestamp readLength fuel { env := e, ops := ops } =
        (some LoopExit.abort,
          { env := (pollStep P timestamp)^[k + 1] e,
            ops := ops ++ pollOps timestamp (k + 1) }) := by
  induction k with
  | zero =>
    intro fuel e ops hav _ hlate hfuel
    obtain ⟨f, rfl⟩ : ∃ f, fuel = f + 1 := ⟨fuel - 1, by omega⟩
    have h0 : (P.bytesAvailable e).1 < readLength := hav 0 (le_refl 0)
    have h1 : (P.timeSince (P.bytesAvailable e).2 timestamp).1 > TIMEOUT_VALUE := hlate
    simp [pollLoop, h0, h1, pollOps, pollStep]
  | succ k ih =>
    intro fuel e ops hav hin hlate hfuel
    obtain ⟨f, rfl⟩ : ∃ f, fuel = f + 1 := ⟨fuel - 1, by omega⟩
    have h0 : (P.bytesAvailable e).1 < readLength := hav 0 (Nat.zero_le _)
    have h1 : ¬ (P.timeSince (P.bytesAvailable e).2 timestamp).1 > TIMEOUT_VALUE := by
      have := hin 0 (Nat.succ_pos k)
      simp only [elapsedAt, Function.iterate_zero, id_eq] at this
      omega
    have hrec := ih f (pollStep P timestamp e)
      (ops ++ [BusOp.bytesAvailable] ++ [BusOp.timeSince timestamp])
      (fun i hi => by
        have := hav (i + 1) (by omega)
        simpa [availableAt, Function.iterate_succ_apply] using this)
      (fun i hi => by
        have := hin (i + 1) (by omega)
        simpa [elapsedAt, Function.iterate_succ_apply] using this)
      (by simpa [elapsedAt, Function.iterate_succ_apply] using hlate)
      (by omega)
    rw [pollLoop]
    simp only [h0, h1, if_true, if_false]
    rw [show (P.timeSince (P.bytesAvailable e).2 timestamp).2 = pollStep P timestamp e from rfl]
    rw [hrec]
    simp [pollOps, Function.iterate_succ_apply]

/-- Whatever happens in the polling loop, it only appends bytesAvailable and
timeSince requests to the log. -/
theorem pollLoop_ops {ε : Type} (P : Platform ε) (timestamp readLength : Nat) :
    ∀ (fuel : Nat) (b : Bus ε),
      ∃ rest, (pollLoop P timestamp readLength fuel b).2.ops = b.ops ++ rest ∧
        ∀ o, o ∈ rest → o = BusOp.bytesAvailable ∨ o = BusOp.timeSince timestamp := by
  intro fuel
  induction fuel with
  | zero =>
    intro b
    exact ⟨[], by simp [pollLoop], by simp⟩
  | succ f ih =>
    intro b
    rw [pollLoop]
    by_cases h0 : (P.bytesAvailable b.env).1 < readLength
    · by_cases h1 : (P.timeSince (P.bytesAvailable b.env).2 timestamp).1 > TIMEOUT_VALUE
      · refine ⟨[BusOp.bytesAvailable, BusOp.timeSince timestamp], by simp [h0, h1], ?_⟩
        intro o ho
        simpa using ho
      · simp only [h0, h1, if_true, if_false]
        obtain ⟨rest, hr, hm⟩ := ih
          { env := (P.timeSince (P.bytesAvailable b.env).2 timestamp).2,
            ops := b.ops ++ [BusOp.bytesAvailable] ++ [BusOp.timeSince timestamp] }
        refine ⟨BusOp.bytesAvailable :: BusOp.timeSince timestamp :: rest, ?_, ?_⟩
        · rw [hr]
          simp
        · intro o ho
          simp only [List.mem_cons] at ho
          rcases ho with h | h | h
          · exact Or.inl h
          · exact Or.inr h
          · exact hm o h
    · refine ⟨[BusOp.bytesAvailable], by simp [h0], ?_⟩
      intro o ho
      exact Or.inl (by simpa using ho)

/-! ## Parameter dispatch: statements -/

/-- C1: for every motor index m with MOTORS ≤ m, every parameter type t and
every value v, GAP and SAP both return exactly TMC_ERROR_MOTOR, whatever the
type; the caller's value is unchanged (also the local copy SAP hands to
handleParameter) and the world is unchanged, so the call log has not grown:
no motion-generator or slave-address operation was invoked.  The motor code
differs from the type code, so the precedence of the motor check shows for
unknown types too. -/
theorem GAP_SAP_invalid_motor {σ τ : Type} (C : Collaborators σ τ) (t m : Nat) (v : Int)
    (w : World σ τ) (hm : MOTORS ≤ m) :
    GAP C t m v w = (TMC_ERROR_MOTOR, v, w) ∧
    SAP C t m v w = (TMC_ERROR_MOTOR, w) ∧
    (handleParameter C WRITE m t v w).2.1 = v ∧
    (GAP C t m v w).2.2.calls = w.calls ∧
    (SAP C t m v w).2.calls = w.calls ∧
    TMC_ERROR_MOTOR ≠ TMC_ERROR_TYPE := by
  have h : m ≥ MOTORS := hm
  simp [GAP, SAP, handleParameter, h, TMC_ERROR_MOTOR, TMC_ERROR_TYPE]

theorem GAP_SAP_invalid_motor_witness :
    MOTORS ≤ 1 ∧
    (GAP storing 4 1 7 world0 = (TMC_ERROR_MOTOR, 7, world0) ∧
     SAP storing 4 1 7 world0 = (TMC_ERROR_MOTOR, world0) ∧
     (handleParameter storing WRITE 1 4 7 world0).2.1 = 7 ∧
     (GAP storing 4 1 7 world0).2.2.calls = world0.calls ∧
     (SAP storing 4 1 7 world0).2.calls = world0.calls ∧
     TMC_ERROR_MOTOR ≠ TMC_ERROR_TYPE) :=
  ⟨by decide, GAP_SAP_invalid_motor storing 4 1 7 world0 (by decide)⟩

/-- C2, as stated, fails at the most negative 32-bit value: for v = -2^31 the
code passes abs(v) computed in 32 bits, which is -2^31 again, to
StepDir_setVelocityMax; that number is negative and differs from |v| = 2^31
(which no int32_t argument can hold), and with the storing generator the
following GAP of type 4 returns -2^31. -/
theorem int_min_velocity_stays_negative :
    (SAP storing 4 0 (-2147483648) world0).1 = TMC_ERROR_NONE ∧
    (SAP storing 4 0 (-2147483648) world0).2.calls =
      [Call.StepDir_setVelocityMax 0 (-2147483648)] ∧
    (GAP storing 4 0 0 (SAP storing 4 0 (-2147483648) world0).2).2.1 = -2147483648 ∧
    ¬ ((0 : Int) ≤ -2147483648) ∧
    (-2147483648 : Int) ≠ |(-2147483648 : Int)| := by
  refine ⟨by decide, by decide, by decide, by decide, ?_⟩
  rw [abs_of_neg (by decide)]
  decide

/-- C2, amended: for every valid motor m < MOTORS, SAP of type 4 returns
TMC_ERROR_NONE for every value v (never rejected); for every 32-bit signed v
other than -2^31 the single collaborator call it makes is
StepDir_setVelocityMax(m, |v|), with |v| non-negative, and with a motion
generator that stores what it is given a following GAP of type 4 returns
TMC_ERROR_NONE and |v|. -/
theorem SAP_max_velocity {σ τ : Type} (C : Collaborators σ τ) (m : Nat) (v v0 : Int)
    (w : World σ τ) (hm : m < MOTORS) :
    (SAP C 4 m v w).1 = TMC_ERROR_NONE ∧
    (-2 ^ 31 < v → v < 2 ^ 31 →
      SAP C 4 m v w =
        (TMC_ERROR_NONE,
          { stepDir := C.StepDir_setVelocityMax w.stepDir m |v|, TMC2209 := w.TMC2209,
            calls := w.calls ++ [Call.StepDir_setVelocityMax m |v|] }) ∧
      0 ≤ |v| ∧
      ((∀ s x, C.StepDir_getVelocityMax (C.StepDir_setVelocityMax s m x) m = x) →
        (GAP C 4 m v0 (SAP C 4 m v w).2).1 = TMC_ERROR_NONE ∧
        (GAP C 4 m v0 (SAP C 4 m v w).2).2.1 = |v|)) := by
  have h := motor_valid hm
  refine ⟨by simp [SAP, handleParameter, h, READ, WRITE], ?_⟩
  intro hlo hhi
  have ha := abs32_of_range v hlo hhi
  refine ⟨by simp [SAP, handleParameter, h, READ, WRITE, ha, World.motion], abs_nonneg v, ?_⟩
  intro hstore
  simp [GAP, SAP, handleParameter, h, READ, WRITE, ha, World.motion, hstore]

theorem SAP_max_velocity_witness :
    0 < MOTORS ∧ (-2 ^ 31 < (-500 : Int)) ∧ ((-500 : Int) < 2 ^ 31) ∧
    (SAP storing 4 0 (-500) world0).1 = TMC_ERROR_NONE ∧
    (SAP storing 4 0 (-500) world0).2.calls = [Call.StepDir_setVelocityMax 0 500] ∧
    (GAP storing 4 0 0 (SAP storing 4 0 (-500) world0).2).1 = TMC_ERROR_NONE ∧
    (GAP storing 4 0 0 (SAP storing 4 0 (-500) world0).2).2.1 = 500 := by
  have h := SAP_max_velocity storing 0 (-500) 0 world0 (by decide)
  have h2 := h.2 (by decide) (by decide)
  have h3 := h2.2.2 (fun _ _ => rfl)
  have e : |(-500 : Int)| = 500 := by rw [abs_of_neg (by decide)]; rfl
  rw [e] at h3
  exact ⟨by decide, by decide, by decide, h.1, by rw [h2.1]; simp [world0, e], h3.1, h3.2⟩

/-- C3: for every valid motor m < MOTORS and every value v, SAP of type 3
(ActualVelocity) returns TMC_ERROR_TYPE, which is an error, and leaves the
world as it was: the generator state is unchanged and no call was logged.
GAP of type 3 on the same motor returns TMC_ERROR_NONE with the value of
StepDir_getActualVelocity. -/
theorem SAP_actual_velocity_rejected {σ τ : Type} (C : Collaborators σ τ) (m : Nat)
    (v v0 : Int) (w : World σ τ) (hm : m < MOTORS) :
    SAP C 3 m v w = (TMC_ERROR_TYPE, w) ∧
    TMC_ERROR_TYPE ≠ TMC_ERROR_NONE ∧
    (SAP C 3 m v w).2.stepDir = w.stepDir ∧
    (SAP C 3 m v w).2.calls = w.calls ∧
    (GAP C 3 m v0 w).1 = TMC_ERROR_NONE ∧
    (GAP C 3 m v0 w).2.1 = C.StepDir_getActualVelocity w.stepDir m := by
  have h := motor_valid hm
  simp [GAP, SAP, handleParameter, h, READ, WRITE, TMC_ERROR_NONE, TMC_ERROR_TYPE]

theorem SAP_actual_velocity_rejected_witness :
    0 < MOTORS ∧
    (SAP storing 3 0 77 world0 = (TMC_ERROR_TYPE, world0) ∧
     TMC_ERROR_TYPE ≠ TMC_ERROR_NONE ∧
     (SAP storing 3 0 77 world0).2.stepDir = world0.stepDir ∧
     (SAP storing 3 0 77 world0).2.calls = world0.calls ∧
     (GAP storing 3 0 5 world0).1 = TMC_ERROR_NONE ∧
     (GAP storing 3 0 5 world0).2.1 = storing.StepDir_getActualVelocity world0.stepDir 0) :=
  ⟨by decide, SAP_actual_velocity_rejected storing 0 77 5 world0 (by decide)⟩

/-- C4: for every valid motor m < MOTORS and every parameter type t ≥ 7, GAP
and SAP both return exactly TMC_ERROR_TYPE, the caller's value is unchanged
(also the local copy SAP hands to handleParameter) and the world is
unchanged, so no collaborator was called; and for every t ≤ 6, GAP returns
TMC_ERROR_NONE, and SAP returns something other than TMC_ERROR_NONE exactly
when t = 3. -/
theorem GAP_SAP_unknown_type {σ τ : Type} (C : Collaborators σ τ) (t m : Nat) (v : Int)
    (w : World σ τ) (hm : m < MOTORS) :
    (7 ≤ t →
      GAP C t m v w = (TMC_ERROR_TYPE, v, w) ∧
      SAP C t m v w = (TMC_ERROR_TYPE, w) ∧
      (handleParameter C WRITE m t v w).2.1 = v) ∧
    (t ≤ 6 →
      (GAP C t m v w).1 = TMC_ERROR_NONE ∧
      ((SAP C t m v w).1 ≠ TMC_ERROR_NONE ↔ t = 3)) := by
  have h := motor_valid hm
  constructor
  · intro ht
    obtain ⟨k, rfl⟩ : ∃ k, t = k + 7 := ⟨t - 7, by omega⟩
    simp [GAP, SAP, handleParameter, h, TMC_ERROR_NONE, TMC_ERROR_TYPE]
  · intro ht
    interval_cases t <;>
      simp [GAP, SAP, handleParameter, h, READ, WRITE, TMC_ERROR_NONE, TMC_ERROR_TYPE]

theorem GAP_SAP_unknown_type_witness :
    0 < MOTORS ∧
    GAP storing 200 0 9 world0 = (TMC_ERROR_TYPE, 9, world0) ∧
    SAP storing 200 0 9 world0 = (TMC_ERROR_TYPE, world0) ∧
    (GAP storing 5 0 9 world0).1 = TMC_ERROR_NONE ∧
    ((SAP storing 5 0 9 world0).1 ≠ TMC_ERROR_NONE ↔ 5 = 3) :=
  ⟨by decide,
    ((GAP_SAP_unknown_type storing 200 0 9 world0 (by decide)).1 (by decide)).1,
    ((GAP_SAP_unknown_type storing 200 0 9 world0 (by decide)).1 (by decide)).2.1,
    ((GAP_SAP_unknown_type storing 5 0 9 world0 (by decide)).2 (by decide)).1,
    ((GAP_SAP_unknown_type storing 5 0 9 world0 (by decide)).2 (by decide)).2⟩

/-- C5: for every valid motor m < MOTORS and every delta, moveBy reads the
actual position p of the generator, calls StepDir_moveTo once, with the
32-bit two's-complement sum of delta and p as target (the call log grows by
exactly the position read followed by that one moveTo), stores this target
in the caller's delta and returns TMC_ERROR_NONE; for MOTORS ≤ m it returns
TMC_ERROR_MOTOR and leaves delta and the world as they were (no position
read, no moveTo).  With p = 1000 and delta = 250 the target is 1250. -/
theorem moveBy_target {σ τ : Type} (C : Collaborators σ τ) (m : Nat) (delta : Int)
    (w : World σ τ) :
    (m < MOTORS →
      moveBy C m delta w =
        (TMC_ERROR_NONE, wrap32 (delta + C.StepDir_getActualPosition w.stepDir m),
          { stepDir :=
              C.StepDir_moveTo w.stepDir m
                (wrap32 (delta + C.StepDir_getActualPosition w.stepDir m)),
            TMC2209 := w.TMC2209,
            calls :=
              w.calls ++
                [Call.StepDir_getActualPosition m,
                 Call.StepDir_moveTo m
                   (wrap32 (delta + C.StepDir_getActualPosition w.stepDir m))] })) ∧
    (MOTORS ≤ m → moveBy C m delta w = (TMC_ERROR_MOTOR, delta, w)) ∧
    wrap32 (250 + 1000) = 1250 := by
  refine ⟨?_, ?_, by decide⟩
  · intro hm
    have h := motor_valid hm
    simp [moveBy, moveTo, h, World.motion, World.observe]
  · intro hm
    have h : m ≥ MOTORS := hm
    simp [moveBy, h]

theorem moveBy_target_witness :
    0 < MOTORS ∧ MOTORS ≤ 1 ∧
    moveBy storing 0 250 world0 =
      (TMC_ERROR_NONE, 1250,
        { stepDir := { atRest with targetPosition := 1250 }, TMC2209 := 0,
          calls := [Call.StepDir_getActualPosition 0, Call.StepDir_moveTo 0 1250] }) ∧
    moveBy storing 1 250 world0 = (TMC_ERROR_MOTOR, 250, world0) := by
  have h := moveBy_target storing 0 250 world0
  have h1 := moveBy_target storing 1 250 world0
  refine ⟨by decide, by decide, ?_, h1.2.1 (by decide)⟩
  rw [h.1 (by decide)]
  rfl

/-- C6: for every valid motor m < MOTORS, a read of type 0, 1, 2, 3, 4, 5
returns TMC_ERROR_NONE and the value of StepDir_getTargetPosition,
getActualPosition, getTargetVelocity, getActualVelocity, getVelocityMax,
getAcceleration of the current generator state, a read of type 6 returns the
value of tmc2209_get_slave, and each of them logs exactly that one call and
leaves the motion and slave state as they were; a write of type 0, 1, 2, 5, 6
returns TMC_ERROR_NONE, makes exactly one call, with the caller's value
unchanged as argument, to StepDir_moveTo, setActualPosition, rotate,
setAcceleration, tmc2209_set_slave, and the new state is the one that call
returns.  The result of every read is a function of the current collaborator
state only: the dispatch keeps no copy of it. -/
theorem handleParameter_routing {σ τ : Type} (C : Collaborators σ τ) (m : Nat) (v : Int)
    (w : World σ τ) (hm : m < MOTORS) :
    GAP C 0 m v w =
      (TMC_ERROR_NONE, C.StepDir_getTargetPosition w.stepDir m,
        { w with calls := w.calls ++ [Call.StepDir_getTargetPosition m] }) ∧
    GAP C 1 m v w =
      (TMC_ERROR_NONE, C.StepDir_getActualPosition w.stepDir m,
        { w with calls := w.calls ++ [Call.StepDir_getActualPosition m] }) ∧
    GAP C 2 m v w =
      (TMC_ERROR_NONE, C.StepDir_getTargetVelocity w.stepDir m,
        { w with calls := w.calls ++ [Call.StepDir_getTargetVelocity m] }) ∧
    GAP C 3 m v w =
      (TMC_ERROR_NONE, C.StepDir_getActualVelocity w.stepDir m,
        { w with calls := w.calls ++ [Call.StepDir_getActualVelocity m] }) ∧
    GAP C 4 m v w =
      (TMC_ERROR_NONE, C.StepDir_getVelocityMax w.stepDir m,
        { w with calls := w.calls ++ [Call.StepDir_getVelocityMax m] }) ∧
    GAP C 5 m v w =
      (TMC_ERROR_NONE, C.StepDir_getAcceleration w.stepDir m,
        { w with calls := w.calls ++ [Call.StepDir_getAcceleration m] }) ∧
    GAP C 6 m v w =
      (TMC_ERROR_NONE, C.tmc2209_get_slave w.TMC2209,
        { w with calls := w.calls ++ [Call.tmc2209_get_slave] }) ∧
    SAP C 0 m v w =
      (TMC_ERROR_NONE,
        { w with stepDir := C.StepDir_moveTo w.stepDir m v,
                 calls := w.calls ++ [Call.StepDir_moveTo m v] }) ∧
    SAP C 1 m v w =
      (TMC_ERROR_NONE,
        { w with stepDir := C.StepDir_setActualPosition w.stepDir m v,
                 calls := w.calls ++ [Call.StepDir_setActualPosition m v] }) ∧
    SAP C 2 m v w =
      (TMC_ERROR_NONE,
        { w with stepDir := C.StepDir_rotate w.stepDir m v,
                 calls := w.calls ++ [Call.StepDir_rotate m v] }) ∧
    SAP C 5 m v w =
      (TMC_ERROR_NONE,
        { w with stepDir := C.StepDir_setAcceleration w.stepDir m v,
                 calls := w.calls ++ [Call.StepDir_setAcceleration m v] }) ∧
    SAP C 6 m v w =
      (TMC_ERROR_NONE,
        { w with TMC2209 := C.tmc2209_set_slave w.TMC2209 v,
                 calls := w.calls ++ [Call.tmc2209_set_slave v] }) := by
  have h := motor_valid hm
  simp [GAP, SAP, handleParameter, h, READ, WRITE, World.motion, World.observe, World.chip]

theorem handleParameter_routing_witness :
    0 < MOTORS ∧
    GAP storing 1 0 0 world0 =
      (TMC_ERROR_NONE, 1000, { world0 with calls := [Call.StepDir_getActualPosition 0] }) ∧
    SAP storing 6 0 3 world0 =
      (TMC_ERROR_NONE, { world0 with TMC2209 := 3, calls := [Call.tmc2209_set_slave 3] }) := by
  have h := handleParameter_routing storing 0 0 world0 (by decide)
  have h3 := handleParameter_routing storing 0 3 world0 (by decide)
  exact ⟨by decide, h.2.1, h3.2.2.2.2.2.2.2.2.2.2.2⟩

/-! ## UART exchange: statements -/

/-- C7: in an exchange with readLength = N > 0 in which bytesAvailable
answers less than N at every poll up to and including poll k, and timeSince
(measured from the timestamp read after the settling wait) first exceeds
TIMEOUT_VALUE at poll k, the polling loop terminates: as soon as more than
k iterations are looked at, the exchange leaves through the timeout abort,
the data array is unchanged, the environment is the one left by the k + 1
polls, and the log has grown by clearBuffers, txN, wait 2, systick_getTick
and the k + 1 polls only: rxN is never requested, and the 2 ms wait comes
before the timestamp against which every timeSince is taken. -/
theorem readWriteArray_timeout {ε : Type} (P : Platform ε) (channel : Nat) (data : List Nat)
    (writeLength N : Nat) (b : Bus ε) (k fuel : Nat)
    (hN : 0 < N)
    (hshort : ∀ i, i ≤ k →
      availableAt P (settled P data writeLength b.env).1 (settled P data writeLength b.env).2 i
        < N)
    (hwithin : ∀ i, i < k →
      elapsedAt P (settled P data writeLength b.env).1 (settled P data writeLength b.env).2 i
        ≤ TIMEOUT_VALUE)
    (hlate : TIMEOUT_VALUE <
      elapsedAt P (settled P data writeLength b.env).1 (settled P data writeLength b.env).2 k)
    (hfuel : k < fuel) :
    tmc2209_readWriteArray P fuel channel data writeLength N b =
      (some ExchangeResult.TimedOut, data,
        { env :=
            (pollStep P (settled P data writeLength b.env).1)^[k + 1]
              (settled P data writeLength b.env).2,
          ops :=
            b.ops ++
              (BusOp.clearBuffers :: BusOp.txN data writeLength :: BusOp.wait 2 ::
                BusOp.systick_getTick ::
                pollOps (settled P data writeLength b.env).1 (k + 1)) }) ∧
    (∀ n, BusOp.rxN n ∉
      (BusOp.clearBuffers :: BusOp.txN data writeLength :: BusOp.wait 2 ::
        BusOp.systick_getTick :: pollOps (settled P data writeLength b.env).1 (k + 1))) := by
  constructor
  · have hl := pollLoop_abort P (settled P data writeLength b.env).1 N k fuel
      (settled P data writeLength b.env).2
      (b.ops ++ [BusOp.clearBuffers] ++ [BusOp.txN data writeLength] ++ [BusOp.wait 2] ++
        [BusOp.systick_getTick])
      hshort hwithin hlate hfuel
    have hN0 : ¬ (N ≤ 0) := by omega
    unfold tmc2209_readWriteArray
    simp only [hN0, if_false]
    simp only [settled] at hl
    rw [hl]
    simp [settled]
  · intro n hn
    simp only [List.mem_cons] at hn
    rcases hn with h | h | h | h | h
    · cases h
    · cases h
    · cases h
    · cases h
    · rcases pollOps_mem _ _ _ h with h | h <;> cases h

theorem readWriteArray_timeout_witness :
    tmc2209_readWriteArray silent 3 0 [5, 0, 6, 111] 4 8 bus0 =
      (some ExchangeResult.TimedOut, [5, 0, 6, 111],
        { env := { now := 117, pending := 0 },
          ops :=
            [BusOp.clearBuffers, BusOp.txN [5, 0, 6, 111] 4, BusOp.wait 2,
             BusOp.systick_getTick,
             BusOp.bytesAvailable, BusOp.timeSince 102,
             BusOp.bytesAvailable, BusOp.timeSince 102,
             BusOp.bytesAvailable, BusOp.timeSince 102] }) := by
  have h := (readWriteArray_timeout silent 0 [5, 0, 6, 111] 4 8 bus0 2 3 (by decide)
    (by intro i hi; interval_cases i <;> decide)
    (by intro i hi; interval_cases i <;> decide)
    (by decide) (by decide)).1
  rw [h]
  rfl

/-- C8: in every exchange, however far the polling is followed, the first
operation requested is clearBuffers and the second is txN of the data array
with writeLength, and neither is requested again; when readLength is 0 the
exchange returns through the write-only path right after the settling
wait: the log has grown by exactly clearBuffers, txN, wait 2 (no
bytesAvailable, no rxN, no systick_getTick, no timeSince) and the data array
is unchanged. -/
theorem readWriteArray_order {ε : Type} (P : Platform ε) (fuel channel : Nat)
    (data : List Nat) (writeLength readLength : Nat) (b : Bus ε) :
    (∃ rest,
      (tmc2209_readWriteArray P fuel channel data writeLength readLength b).2.2.ops =
        b.ops ++ BusOp.clearBuffers :: BusOp.txN data writeLength :: rest ∧
      BusOp.clearBuffers ∉ rest ∧ ∀ d n, BusOp.txN d n ∉ rest) ∧
    (readLength = 0 →
      tmc2209_readWriteArray P fuel channel data writeLength readLength b =
        (some ExchangeResult.Written, data,
          { env := P.wait (P.txN (P.clearBuffers b.env) data writeLength) 2,
            ops := b.ops ++
              [BusOp.clearBuffers, BusOp.txN data writeLength, BusOp.wait 2] })) := by
  constructor
  · by_cases h0 : readLength ≤ 0
    · refine ⟨[BusOp.wait 2], by simp [tmc2209_readWriteArray, h0], by simp, by simp⟩
    · obtain ⟨rest, hr, hm⟩ := pollLoop_ops P
        (settled P data writeLength b.env).1 readLength fuel
        { env := (settled P data writeLength b.env).2,
          ops := b.ops ++ [BusOp.clearBuffers] ++ [BusOp.txN data writeLength] ++
            [BusOp.wait 2] ++ [BusOp.systick_getTick] }
      have hclear : BusOp.clearBuffers ∉ rest := fun hc => by
        rcases hm _ hc with h | h <;> cases h
      have htx : ∀ d n, BusOp.txN d n ∉ rest := fun d n hc => by
        rcases hm _ hc with h | h <;> cases h
      unfold tmc2209_readWriteArray
      simp only [h0, if_false]
      simp only [settled] at hr
      split
      · rename_i b5 heq
        rw [heq] at hr
        refine ⟨BusOp.wait 2 :: BusOp.systick_getTick :: rest, ?_, ?_, ?_⟩
        · simpa using hr
        · simpa using hclear
        · simpa using htx
      · rename_i b5 heq
        rw [heq] at hr
        refine ⟨BusOp.wait 2 :: BusOp.systick_getTick :: rest, ?_, ?_, ?_⟩
        · simpa using hr
        · simpa using hclear
        · simpa using htx
      · rename_i b5 heq
        rw [heq] at hr
        refine ⟨BusOp.wait 2 :: BusOp.systick_getTick :: (rest ++ [BusOp.rxN readLength]),
          ?_, ?_, ?_⟩
        · simp only at hr
          simp [hr]
        · simpa using hclear
        · simpa using htx
  · intro h0
    subst h0
    simp [tmc2209_readWriteArray]

theorem readWriteArray_order_witness :
    (0 : Nat) = 0 ∧
    tmc2209_readWriteArray silent 5 0 [5, 0, 134, 1, 2, 3, 4, 99] 8 0 bus0 =
      (some ExchangeResult.Written, [5, 0, 134, 1, 2, 3, 4, 99],
        { env := { now := 102, pending := 0 },
          ops := [BusOp.clearBuffers, BusOp.txN [5, 0, 134, 1, 2, 3, 4, 99] 8,
                  BusOp.wait 2] }) := by
  refine ⟨rfl, ?_⟩
  rw [(readWriteArray_order silent 5 0 [5, 0, 134, 1, 2, 3, 4, 99] 8 0 bus0).2 rfl]
  rfl

/-! ## Health tick and driver enable: statements -/

/-- C9: for every tick value and every prior board state, checkErrors sets
the error bitmask of channel 2 to 0 and changes nothing else (the other
fields of channel 2, channel 1, the global enable flag and the pins are as
before); so after each of two consecutive ticks the bitmask is 0, a second
tick changes nothing more, and the result does not depend on the tick
argument. -/
theorem checkErrors_resets (tick tick2 : Nat) (b : Board) :
    (checkErrors tick b).Evalboards.ch2.errors = 0 ∧
    (checkErrors tick b).Evalboards.ch2.numberOfMotors = b.Evalboards.ch2.numberOfMotors ∧
    (checkErrors tick b).Evalboards.ch2.VMMin = b.Evalboards.ch2.VMMin ∧
    (checkErrors tick b).Evalboards.ch2.VMMax = b.Evalboards.ch2.VMMax ∧
    (checkErrors tick b).Evalboards.ch1 = b.Evalboards.ch1 ∧
    (checkErrors tick b).Evalboards.driverEnable = b.Evalboards.driverEnable ∧
    (checkErrors tick b).pinCalls = b.pinCalls ∧
    (checkErrors tick2 (checkErrors tick b)).Evalboards.ch2.errors = 0 ∧
    checkErrors tick2 (checkErrors tick b) = checkErrors tick b ∧
    checkErrors tick b = checkErrors tick2 b := by
  simp [checkErrors]

/-- C10: for every requested state s and every global enable flag g (the
field driverEnable of the board), with e the effective state (g when s is
DRIVER_USE_GLOBAL_ENABLE, s otherwise): enableDriver requests setHigh on ENN
exactly when e is DRIVER_DISABLE, requests setLow on ENN exactly when e and
g are both DRIVER_ENABLE, and leaves the board as it was exactly in the
remaining cases; it makes at most that one request and never changes the
Evalboards record.  In particular no setLow is requested while g is not
DRIVER_ENABLE, and enableDriver(DRIVER_ENABLE) under a DRIVER_DISABLE flag
changes nothing. -/
theorem enableDriver_pin (s : DriverState) (b : Board) :
    (effectiveState s b.Evalboards.driverEnable = DriverState.DRIVER_DISABLE ↔
      enableDriver s b = { b with pinCalls := b.pinCalls ++ [HalCall.setHigh Pins.ENN] }) ∧
    (effectiveState s b.Evalboards.driverEnable = DriverState.DRIVER_ENABLE ∧
        b.Evalboards.driverEnable = DriverState.DRIVER_ENABLE ↔
      enableDriver s b = { b with pinCalls := b.pinCalls ++ [HalCall.setLow Pins.ENN] }) ∧
    (¬ effectiveState s b.Evalboards.driverEnable = DriverState.DRIVER_DISABLE ∧
        ¬ (effectiveState s b.Evalboards.driverEnable = DriverState.DRIVER_ENABLE ∧
            b.Evalboards.driverEnable = DriverState.DRIVER_ENABLE) ↔
      enableDriver s b = b) ∧
    (enableDriver s b).Evalboards = b.Evalboards ∧
    (b.Evalboards.driverEnable ≠ DriverState.DRIVER_ENABLE →
      enableDriver s b = b ∨
      enableDriver s b = { b with pinCalls := b.pinCalls ++ [HalCall.setHigh Pins.ENN] }) ∧
    (s = DriverState.DRIVER_ENABLE →
      b.Evalboards.driverEnable = DriverState.DRIVER_DISABLE → enableDriver s b = b) := by
  obtain ⟨⟨g, c1, c2⟩, pins⟩ := b
  cases s <;> cases g <;> simp [enableDriver, effectiveState]

theorem enableDriver_pin_witness :
    enableDriver DriverState.DRIVER_ENABLE
        { Evalboards :=
            { driverEnable := DriverState.DRIVER_DISABLE,
              ch1 := { errors := 0, numberOfMotors := 1, VMMin := 50, VMMax := 390 },
              ch2 := { errors := 0, numberOfMotors := 1, VMMin := 50, VMMax := 390 } },
          pinCalls := [] } =
      { Evalboards :=
          { driverEnable := DriverState.DRIVER_DISABLE,
            ch1 := { errors := 0, numberOfMotors := 1, VMMin := 50, VMMax := 390 },
            ch2 := { errors := 0, numberOfMotors := 1, VMMin := 50, VMMax := 390 } },
        pinCalls := [] } :=
  (enableDriver_pin DriverState.DRIVER_ENABLE
    { Evalboards :=
        { driverEnable := DriverState.DRIVER_DISABLE,
          ch1 := { errors := 0, numberOfMotors := 1, VMMin := 50, VMMax := 390 },
          ch2 := { errors := 0, numberOfMotors := 1, VMMin := 50, VMMax := 390 } },
      pinCalls := [] }).2.2.2.2.2 rfl rfl

end TMC2209_eval
